import Mathlib

/-!
Shallow embedding of the layout core of the `views_rs` repository:
the extent descriptor data model (`src/view/extent/update/mod.rs`),
the evaluator (`get.rs`), the reference validator and the check
predicates (`validate.rs`), the index-rewrite operations (`update.rs`)
and the children scheduler (`src/view/children/scheduler.rs`).

Modelling conventions:
* `f32` values are modelled as rationals (`Rat`); the embedded code only
  adds, multiplies, divides and compares them.
* `usize` indices are modelled as `Nat`.
* Fallible code (the `unwrap`s of `RefView::get`, the panicking slice
  operations of `Vec`) is modelled with `Option`.
* `Rc<RefCell<...>>` sharing is flattened: a handle list is a plain
  `List` and mutation is explicit state passing.
-/

/-- The positive aspect ratio `w / h` of a view (named `Ratio` in
`src/view/extent/mod.rs`; renamed here because that name clashes with the
`ExtentUpdateType.Ratio` constructor), always created through
`AspectRatio.new`. -/
structure AspectRatio where
  value : Rat
  deriving Repr, DecidableEq

/-- Creates a new ratio (w / h), `none` if `w <= 0` or `h <= 0`
(`Ratio::new`). -/
def AspectRatio.new (w h : Rat) : Option AspectRatio :=
  if w > 0 ∧ h > 0 then some ⟨w / h⟩ else none

/-- The ratio component used for the x-axis: `w / h` (`Ratio::get_x`). -/
def AspectRatio.get_x (r : AspectRatio) : Rat := r.value

/-- The ratio component used for the y-axis: `h / w` (`Ratio::get_y`). -/
def AspectRatio.get_y (r : AspectRatio) : Rat := 1 / r.value

/-- The dimension selector (`Dim` in `src/view/extent/update/mod.rs`). -/
inductive Dim where
  | X
  | Y
  deriving Repr, DecidableEq

/-- A reference to an older sibling view (`RefView`). -/
inductive RefView where
  /-- Use the previous sibling view. -/
  | Prev
  /-- Use the id of a sibling which is older than this one. -/
  | Id (n : Nat)
  deriving Repr, DecidableEq

/-- An anchor point on a referenced view (`AnchorPoint`): `ref_point = 0`
is the low edge, `ref_point = 1` the high edge. -/
structure AnchorPoint where
  ref_view : RefView
  ref_point : Rat
  deriving Repr, DecidableEq

/-- The ways to obtain a position (`PositionType`). -/
inductive PositionType where
  | Anchor (anchor : AnchorPoint)
  | Set (pos : Rat)
  deriving Repr, DecidableEq

/-- Stretching between two positions (`ExtentStretch`). -/
structure ExtentStretch where
  pos1 : PositionType
  pos2 : PositionType
  deriving Repr, DecidableEq

/-- The ways to obtain a size (`SizeType`). -/
inductive SizeType where
  | Stretch (stretch : ExtentStretch)
  | Relative (ref_view : RefView)
  | Set (size : Rat)
  deriving Repr, DecidableEq

/-- Position plus size mode (`ExtentLocate`). -/
structure ExtentLocate where
  pos : PositionType
  size : SizeType
  deriving Repr, DecidableEq

/-- Fixed-aspect mode (`ExtentRatio`): the size is derived from the
other axis. -/
structure ExtentRatio where
  pos : PositionType
  deriving Repr, DecidableEq

/-- The base extent modes (`ExtentUpdateType`). -/
inductive ExtentUpdateType where
  | Stretch (stretch : ExtentStretch)
  | Locate (locate : ExtentLocate)
  | Ratio (ratio : ExtentRatio)
  deriving Repr, DecidableEq

/-- One axis of a descriptor (`ExtentUpdateSingle`): a base mode plus the
post-processing pipeline parameters. -/
structure ExtentUpdateSingle where
  extent_type : ExtentUpdateType
  scale_rel : Rat
  scale_abs : Rat
  offset_rel : Rat
  offset_abs : Rat
  deriving Repr, DecidableEq

/-- A whole descriptor (`ExtentUpdate`): one rule per axis. -/
structure ExtentUpdate where
  x : ExtentUpdateSingle
  y : ExtentUpdateSingle
  deriving Repr, DecidableEq

/-! ## Index-rewrite operations (`src/view/extent/update/update.rs`)

Each Rust method mutates in place; the embedding returns the updated
value. -/

/-- `RefView::update_insert`: an `Id` at or above the insertion point
shifts up by one. -/
def RefView.update_insert (self : RefView) (pos : Nat) : RefView :=
  match self with
  | .Id id => if id ≥ pos then .Id (id + 1) else .Id id
  | .Prev => .Prev

/-- `RefView::update_move`: the moved id becomes `to`; ids in the shifted
span move by one in the opposite direction. -/
def RefView.update_move (self : RefView) (fromPos toPos : Nat) : RefView :=
  match self with
  | .Id id =>
    if id = fromPos then .Id toPos
    else
      if fromPos > toPos then
        if id < fromPos ∧ id ≥ toPos then .Id (id + 1) else .Id id
      else
        if id > fromPos ∧ id ≤ toPos then .Id (id - 1) else .Id id
  | .Prev => .Prev

/-- `RefView::update_delete`: an `Id` above the deleted position shifts
down by one. -/
def RefView.update_delete (self : RefView) (pos : Nat) : RefView :=
  match self with
  | .Id id => if id > pos then .Id (id - 1) else .Id id
  | .Prev => .Prev

/-- `AnchorPoint::update_insert`. -/
def AnchorPoint.update_insert (self : AnchorPoint) (pos : Nat) : AnchorPoint :=
  { self with ref_view := self.ref_view.update_insert pos }

/-- `AnchorPoint::update_move`. -/
def AnchorPoint.update_move (self : AnchorPoint) (fromPos toPos : Nat) : AnchorPoint :=
  { self with ref_view := self.ref_view.update_move fromPos toPos }

/-- `AnchorPoint::update_delete`. -/
def AnchorPoint.update_delete (self : AnchorPoint) (pos : Nat) : AnchorPoint :=
  { self with ref_view := self.ref_view.update_delete pos }

/-- `PositionType::update_insert`. -/
def PositionType.update_insert (self : PositionType) (pos : Nat) : PositionType :=
  match self with
  | .Anchor anchor => .Anchor (anchor.update_insert pos)
  | .Set v => .Set v

/-- `PositionType::update_move`. -/
def PositionType.update_move (self : PositionType) (fromPos toPos : Nat) : PositionType :=
  match self with
  | .Anchor anchor => .Anchor (anchor.update_move fromPos toPos)
  | .Set v => .Set v

/-- `PositionType::update_delete`. -/
def PositionType.update_delete (self : PositionType) (pos : Nat) : PositionType :=
  match self with
  | .Anchor anchor => .Anchor (anchor.update_delete pos)
  | .Set v => .Set v

/-- `ExtentStretch::update_insert`. -/
def ExtentStretch.update_insert (self : ExtentStretch) (pos : Nat) : ExtentStretch :=
  { pos1 := self.pos1.update_insert pos, pos2 := self.pos2.update_insert pos }

/-- `ExtentStretch::update_move`. -/
def ExtentStretch.update_move (self : ExtentStretch) (fromPos toPos : Nat) : ExtentStretch :=
  { pos1 := self.pos1.update_move fromPos toPos, pos2 := self.pos2.update_move fromPos toPos }

/-- `ExtentStretch::update_delete`. -/
def ExtentStretch.update_delete (self : ExtentStretch) (pos : Nat) : ExtentStretch :=
  { pos1 := self.pos1.update_delete pos, pos2 := self.pos2.update_delete pos }

/-- `SizeType::update_insert`. -/
def SizeType.update_insert (self : SizeType) (pos : Nat) : SizeType :=
  match self with
  | .Relative relative => .Relative (relative.update_insert pos)
  | .Stretch stretch => .Stretch (stretch.update_insert pos)
  | .Set v => .Set v

/-- `SizeType::update_move`. -/
def SizeType.update_move (self : SizeType) (fromPos toPos : Nat) : SizeType :=
  match self with
  | .Relative relative => .Relative (relative.update_move fromPos toPos)
  | .Stretch stretch => .Stretch (stretch.update_move fromPos toPos)
  | .Set v => .Set v

/-- `SizeType::update_delete`. -/
def SizeType.update_delete (self : SizeType) (pos : Nat) : SizeType :=
  match self with
  | .Relative relative => .Relative (relative.update_delete pos)
  | .Stretch stretch => .Stretch (stretch.update_delete pos)
  | .Set v => .Set v

/-- `ExtentLocate::update_insert`. The source really does call
`size.update_delete(pos)` here (src/view/extent/update/update.rs line
165), not `update_insert`. -/
def ExtentLocate.update_insert (self : ExtentLocate) (pos : Nat) : ExtentLocate :=
  { pos := self.pos.update_insert pos, size := self.size.update_delete pos }

/-- `ExtentLocate::update_move`. -/
def ExtentLocate.update_move (self : ExtentLocate) (fromPos toPos : Nat) : ExtentLocate :=
  { pos := self.pos.update_move fromPos toPos, size := self.size.update_move fromPos toPos }

/-- `ExtentLocate::update_delete`. -/
def ExtentLocate.update_delete (self : ExtentLocate) (pos : Nat) : ExtentLocate :=
  { pos := self.pos.update_delete pos, size := self.size.update_delete pos }

/-- `ExtentRatio::update_insert`. -/
def ExtentRatio.update_insert (self : ExtentRatio) (pos : Nat) : ExtentRatio :=
  { pos := self.pos.update_insert pos }

/-- `ExtentRatio::update_move`. -/
def ExtentRatio.update_move (self : ExtentRatio) (fromPos toPos : Nat) : ExtentRatio :=
  { pos := self.pos.update_move fromPos toPos }

/-- `ExtentRatio::update_delete`. -/
def ExtentRatio.update_delete (self : ExtentRatio) (pos : Nat) : ExtentRatio :=
  { pos := self.pos.update_delete pos }

/-- `ExtentUpdateType::update_insert`. -/
def ExtentUpdateType.update_insert (self : ExtentUpdateType) (pos : Nat) : ExtentUpdateType :=
  match self with
  | .Stretch stretch => .Stretch (stretch.update_insert pos)
  | .Locate locate => .Locate (locate.update_insert pos)
  | .Ratio ratio => .Ratio (ratio.update_insert pos)

/-- `ExtentUpdateType::update_move`. -/
def ExtentUpdateType.update_move (self : ExtentUpdateType) (fromPos toPos : Nat) : ExtentUpdateType :=
  match self with
  | .Stretch stretch => .Stretch (stretch.update_move fromPos toPos)
  | .Locate locate => .Locate (locate.update_move fromPos toPos)
  | .Ratio ratio => .Ratio (ratio.update_move fromPos toPos)

/-- `ExtentUpdateType::update_delete`. -/
def ExtentUpdateType.update_delete (self : ExtentUpdateType) (pos : Nat) : ExtentUpdateType :=
  match self with
  | .Stretch stretch => .Stretch (stretch.update_delete pos)
  | .Locate locate => .Locate (locate.update_delete pos)
  | .Ratio ratio => .Ratio (ratio.update_delete pos)

/-- `ExtentUpdateSingle::update_insert`. -/
def ExtentUpdateSingle.update_insert (self : ExtentUpdateSingle) (pos : Nat) : ExtentUpdateSingle :=
  { self with extent_type := self.extent_type.update_insert pos }

/-- `ExtentUpdateSingle::update_move`. -/
def ExtentUpdateSingle.update_move (self : ExtentUpdateSingle) (fromPos toPos : Nat) : ExtentUpdateSingle :=
  { self with extent_type := self.extent_type.update_move fromPos toPos }

/-- `ExtentUpdateSingle::update_delete`. -/
def ExtentUpdateSingle.update_delete (self : ExtentUpdateSingle) (pos : Nat) : ExtentUpdateSingle :=
  { self with extent_type := self.extent_type.update_delete pos }

/-- `ExtentUpdate::update_insert`. -/
def ExtentUpdate.update_insert (self : ExtentUpdate) (pos : Nat) : ExtentUpdate :=
  { x := self.x.update_insert pos, y := self.y.update_insert pos }

/-- `ExtentUpdate::update_move`. -/
def ExtentUpdate.update_move (self : ExtentUpdate) (fromPos toPos : Nat) : ExtentUpdate :=
  { x := self.x.update_move fromPos toPos, y := self.y.update_move fromPos toPos }

/-- `ExtentUpdate::update_delete`. -/
def ExtentUpdate.update_delete (self : ExtentUpdate) (pos : Nat) : ExtentUpdate :=
  { x := self.x.update_delete pos, y := self.y.update_delete pos }

/-! ## Runtime state and the evaluator (`src/view/extent/update/get.rs`)

Only the resolved rectangle of a sibling is read during evaluation, so
`View` is embedded with its `Extent` state; the child list and the
update flags of the source `View` are irrelevant to the embedded
operations and omitted. -/

/-- The resolved rectangle of a view (`Extent` in
`src/view/extent/mod.rs`, the fields read by `Dim::get_from_view`). -/
structure Extent where
  x : Rat
  y : Rat
  w : Rat
  h : Rat
  ratio : Option AspectRatio
  update_info : ExtentUpdate
  deriving Repr, DecidableEq

/-- A view, reduced to the state the embedded operations read. -/
structure View where
  extent : Extent
  deriving Repr, DecidableEq

/-- `Dim::get_from_view`: the (position, size) pair of a view in one
dimension. -/
def Dim.get_from_view (self : Dim) (view : View) : Rat × Rat :=
  match self with
  | .X => (view.extent.x, view.extent.w)
  | .Y => (view.extent.y, view.extent.h)

/-- `RefView::get`: resolve the reference against the older siblings.
The source unwraps (`siblings.last().unwrap()` / `siblings.get(n).unwrap()`);
a failed lookup is a panic, embedded as `none`. -/
def RefView.get (self : RefView) (dim : Dim) (siblings : List View) : Option (Rat × Rat) :=
  match self with
  | .Prev => siblings.getLast?.map dim.get_from_view
  | .Id n => siblings[n]?.map dim.get_from_view

/-- `AnchorPoint::get`: `pos + ref_point * size` of the referenced view. -/
def AnchorPoint.get (self : AnchorPoint) (dim : Dim) (siblings : List View) : Option Rat :=
  (self.ref_view.get dim siblings).map fun ps => ps.1 + self.ref_point * ps.2

/-- `PositionType::get`. -/
def PositionType.get (self : PositionType) (dim : Dim) (siblings : List View) : Option Rat :=
  match self with
  | .Anchor anchor => anchor.get dim siblings
  | .Set pos => some pos

/-- `ExtentStretch::get`: `(pos1, pos2 - pos1)`. -/
def ExtentStretch.get (self : ExtentStretch) (dim : Dim) (siblings : List View) : Option (Rat × Rat) :=
  match self.pos1.get dim siblings, self.pos2.get dim siblings with
  | some pos1, some pos2 => some (pos1, pos2 - pos1)
  | _, _ => none

/-- `SizeType::get`. -/
def SizeType.get (self : SizeType) (dim : Dim) (siblings : List View) : Option Rat :=
  match self with
  | .Stretch stretch => (stretch.get dim siblings).map fun ps => ps.2
  | .Relative ref_view => (ref_view.get dim siblings).map fun ps => ps.2
  | .Set size => some size

/-- `ExtentLocate::get`. -/
def ExtentLocate.get (self : ExtentLocate) (dim : Dim) (siblings : List View) : Option (Rat × Rat) :=
  match self.pos.get dim siblings, self.size.get dim siblings with
  | some pos, some size => some (pos, size)
  | _, _ => none

/-- `ExtentRatio::get`: the size is the other axis size divided by the
parent ratio component of this axis. -/
def ExtentRatio.get (self : ExtentRatio) (dim : Dim) (siblings : List View)
    (parent_ratio : AspectRatio) (other_size : Rat) : Option (Rat × Rat) :=
  (self.pos.get dim siblings).map fun pos =>
    (pos, other_size / (match dim with | .X => parent_ratio.get_x | .Y => parent_ratio.get_y))

/-- `ExtentUpdateType::get`. -/
def ExtentUpdateType.get (self : ExtentUpdateType) (dim : Dim) (siblings : List View)
    (parent_ratio : AspectRatio) (other_size : Rat) : Option (Rat × Rat) :=
  match self with
  | .Stretch stretch => stretch.get dim siblings
  | .Locate locate => locate.get dim siblings
  | .Ratio ratio => ratio.get dim siblings parent_ratio other_size

/-- `ExtentUpdateSingle::get`: the base extent followed by the offset and
scale pipeline; a negative size is clamped to zero. -/
def ExtentUpdateSingle.get (self : ExtentUpdateSingle) (dim : Dim) (siblings : List View)
    (parent_ratio : AspectRatio) (other_size : Rat) : Option (Rat × Rat) :=
  match self.extent_type.get dim siblings parent_ratio other_size with
  | some ps =>
    let pos := ps.1 + self.offset_abs + self.offset_rel * ps.2
    let size := ps.2 * self.scale_rel + self.scale_abs
    some (pos, if size < 0 then 0 else size)
  | none => none

/-- `ExtentUpdate::get`: if the x-axis is in ratio mode the y-axis is
evaluated first and feeds its size to x, otherwise x is evaluated first.
Returns `(x, y, w, h)`. -/
def ExtentUpdate.get (self : ExtentUpdate) (siblings : List View) (parent_ratio : AspectRatio) :
    Option (Rat × Rat × Rat × Rat) :=
  match self.x.extent_type with
  | .Ratio _ =>
    match self.y.get .Y siblings parent_ratio 0 with
    | some yv =>
      match self.x.get .X siblings parent_ratio yv.2 with
      | some xv => some (xv.1, yv.1, xv.2, yv.2)
      | none => none
    | none => none
  | _ =>
    match self.x.get .X siblings parent_ratio 0 with
    | some xv =>
      match self.y.get .Y siblings parent_ratio xv.2 with
      | some yv => some (xv.1, yv.1, xv.2, yv.2)
      | none => none
    | none => none

/-! ## Check predicates and the validator (`src/view/extent/update/validate.rs`) -/

/-- `RefView::check_id`: does this reference use exactly this id. -/
def RefView.check_id (self : RefView) (id : Nat) : Bool :=
  match self with
  | .Id use_id => id = use_id
  | .Prev => false

/-- `RefView::check_id_range`: does this reference use an id in the
half-open range `[lo, hi)` (a Rust `Range<usize>`). -/
def RefView.check_id_range (self : RefView) (lo hi : Nat) : Bool :=
  match self with
  | .Id id => lo ≤ id ∧ id < hi
  | .Prev => false

/-- `RefView::check_prev`: does this reference use the previous sibling. -/
def RefView.check_prev (self : RefView) : Bool :=
  match self with
  | .Prev => true
  | .Id _ => false

/-- `AnchorPoint::check_id`. -/
def AnchorPoint.check_id (self : AnchorPoint) (id : Nat) : Bool :=
  self.ref_view.check_id id

/-- `AnchorPoint::check_id_range`. -/
def AnchorPoint.check_id_range (self : AnchorPoint) (lo hi : Nat) : Bool :=
  self.ref_view.check_id_range lo hi

/-- `AnchorPoint::check_prev`. -/
def AnchorPoint.check_prev (self : AnchorPoint) : Bool :=
  self.ref_view.check_prev

/-- `PositionType::check_id`. -/
def PositionType.check_id (self : PositionType) (id : Nat) : Bool :=
  match self with
  | .Anchor anchor => anchor.check_id id
  | .Set _ => false

/-- `PositionType::check_id_range`. -/
def PositionType.check_id_range (self : PositionType) (lo hi : Nat) : Bool :=
  match self with
  | .Anchor anchor => anchor.check_id_range lo hi
  | .Set _ => false

/-- `PositionType::check_prev`. -/
def PositionType.check_prev (self : PositionType) : Bool :=
  match self with
  | .Anchor anchor => anchor.check_prev
  | .Set _ => false

/-- `ExtentStretch::check_id`. -/
def ExtentStretch.check_id (self : ExtentStretch) (id : Nat) : Bool :=
  self.pos1.check_id id || self.pos2.check_id id

/-- `ExtentStretch::check_id_range`. -/
def ExtentStretch.check_id_range (self : ExtentStretch) (lo hi : Nat) : Bool :=
  self.pos1.check_id_range lo hi || self.pos2.check_id_range lo hi

/-- `ExtentStretch::check_prev`. -/
def ExtentStretch.check_prev (self : ExtentStretch) : Bool :=
  self.pos1.check_prev || self.pos2.check_prev

/-- `SizeType::check_id`. -/
def SizeType.check_id (self : SizeType) (id : Nat) : Bool :=
  match self with
  | .Relative relative => relative.check_id id
  | .Stretch stretch => stretch.check_id id
  | .Set _ => false

/-- `SizeType::check_id_range`. -/
def SizeType.check_id_range (self : SizeType) (lo hi : Nat) : Bool :=
  match self with
  | .Relative relative => relative.check_id_range lo hi
  | .Stretch stretch => stretch.check_id_range lo hi
  | .Set _ => false

/-- `SizeType::check_prev`. -/
def SizeType.check_prev (self : SizeType) : Bool :=
  match self with
  | .Relative relative => relative.check_prev
  | .Stretch stretch => stretch.check_prev
  | .Set _ => false

/-- `ExtentLocate::check_id`. -/
def ExtentLocate.check_id (self : ExtentLocate) (id : Nat) : Bool :=
  self.pos.check_id id || self.size.check_id id

/-- `ExtentLocate::check_id_range`. -/
def ExtentLocate.check_id_range (self : ExtentLocate) (lo hi : Nat) : Bool :=
  self.pos.check_id_range lo hi || self.size.check_id_range lo hi

/-- `ExtentLocate::check_prev`. -/
def ExtentLocate.check_prev (self : ExtentLocate) : Bool :=
  self.pos.check_prev || self.size.check_prev

/-- `ExtentRatio::check_id`. -/
def ExtentRatio.check_id (self : ExtentRatio) (id : Nat) : Bool :=
  self.pos.check_id id

/-- `ExtentRatio::check_id_range`. -/
def ExtentRatio.check_id_range (self : ExtentRatio) (lo hi : Nat) : Bool :=
  self.pos.check_id_range lo hi

/-- `ExtentRatio::check_prev`. -/
def ExtentRatio.check_prev (self : ExtentRatio) : Bool :=
  self.pos.check_prev

/-- `ExtentUpdateType::check_id`. -/
def ExtentUpdateType.check_id (self : ExtentUpdateType) (id : Nat) : Bool :=
  match self with
  | .Stretch stretch => stretch.check_id id
  | .Locate locate => locate.check_id id
  | .Ratio ratio => ratio.check_id id

/-- `ExtentUpdateType::check_id_range`. -/
def ExtentUpdateType.check_id_range (self : ExtentUpdateType) (lo hi : Nat) : Bool :=
  match self with
  | .Stretch stretch => stretch.check_id_range lo hi
  | .Locate locate => locate.check_id_range lo hi
  | .Ratio ratio => ratio.check_id_range lo hi

/-- `ExtentUpdateType::check_prev`. -/
def ExtentUpdateType.check_prev (self : ExtentUpdateType) : Bool :=
  match self with
  | .Stretch stretch => stretch.check_prev
  | .Locate locate => locate.check_prev
  | .Ratio ratio => ratio.check_prev

/-- `ExtentUpdateSingle::check_id`. -/
def ExtentUpdateSingle.check_id (self : ExtentUpdateSingle) (id : Nat) : Bool :=
  self.extent_type.check_id id

/-- `ExtentUpdateSingle::check_id_range`. -/
def ExtentUpdateSingle.check_id_range (self : ExtentUpdateSingle) (lo hi : Nat) : Bool :=
  self.extent_type.check_id_range lo hi

/-- `ExtentUpdateSingle::check_prev`. -/
def ExtentUpdateSingle.check_prev (self : ExtentUpdateSingle) : Bool :=
  self.extent_type.check_prev

/-- `ExtentUpdate::check_id`. -/
def ExtentUpdate.check_id (self : ExtentUpdate) (id : Nat) : Bool :=
  self.x.check_id id || self.y.check_id id

/-- `ExtentUpdate::check_id_range`. -/
def ExtentUpdate.check_id_range (self : ExtentUpdate) (lo hi : Nat) : Bool :=
  self.x.check_id_range lo hi || self.y.check_id_range lo hi

/-- `ExtentUpdate::check_prev`. -/
def ExtentUpdate.check_prev (self : ExtentUpdate) : Bool :=
  self.x.check_prev || self.y.check_prev

/-- The validation errors of the extent validator (`ValidateError` in
`src/view/extent/update/validate.rs`). -/
inductive ValidateError where
  /-- A sibling id is too large: `InvalidId(used, limit)`. -/
  | InvalidId (used limit : Nat)
  /-- A reference to the previous sibling but there is no older sibling. -/
  | NoPrev
  /-- Both axes use aspect mode. -/
  | BothRatio
  deriving Repr, DecidableEq

/-- Modelled from the spec: `ExtentController` is referenced by
`src/view/children/scheduler.rs` but its definition is not under `src/`;
per the spec a reference handle is a lightweight proxy per child exposing
only the reference-graph queries (`check_id`, `check_prev`,
`check_id_range`) and the index-rewrite mutators (`update_insert`,
`update_move`, `update_delete`) of the child's descriptor, exactly as the
in-tree `ExtentUpdateContainer` (`src/view/extent/mod.rs`) wraps an
`ExtentUpdate` and delegates to it. -/
structure ExtentController where
  update_info : ExtentUpdate
  deriving Repr, DecidableEq

/-- Delegated `check_id` of a reference handle. -/
def ExtentController.check_id (self : ExtentController) (id : Nat) : Bool :=
  self.update_info.check_id id

/-- Delegated `check_id_range` of a reference handle. -/
def ExtentController.check_id_range (self : ExtentController) (lo hi : Nat) : Bool :=
  self.update_info.check_id_range lo hi

/-- Delegated `check_prev` of a reference handle. -/
def ExtentController.check_prev (self : ExtentController) : Bool :=
  self.update_info.check_prev

/-- Delegated `update_insert` of a reference handle. -/
def ExtentController.update_insert (self : ExtentController) (pos : Nat) : ExtentController :=
  ⟨self.update_info.update_insert pos⟩

/-- Delegated `update_move` of a reference handle. -/
def ExtentController.update_move (self : ExtentController) (fromPos toPos : Nat) : ExtentController :=
  ⟨self.update_info.update_move fromPos toPos⟩

/-- Delegated `update_delete` of a reference handle. -/
def ExtentController.update_delete (self : ExtentController) (pos : Nat) : ExtentController :=
  ⟨self.update_info.update_delete pos⟩

/-- `RefView::validate`: an `Id` must be smaller than the number of older
siblings, `Prev` requires at least one older sibling. -/
def RefView.validate (self : RefView) (siblings : List ExtentController) :
    Except ValidateError Unit :=
  match self with
  | .Id index =>
    if index ≥ siblings.length then .error (.InvalidId index siblings.length) else .ok ()
  | .Prev =>
    if siblings.length = 0 then .error .NoPrev else .ok ()

/-- `AnchorPoint::validate`. -/
def AnchorPoint.validate (self : AnchorPoint) (siblings : List ExtentController) :
    Except ValidateError Unit :=
  self.ref_view.validate siblings

/-- `PositionType::validate`. -/
def PositionType.validate (self : PositionType) (siblings : List ExtentController) :
    Except ValidateError Unit :=
  match self with
  | .Anchor anchor => anchor.validate siblings
  | .Set _ => .ok ()

/-- `ExtentStretch::validate`. -/
def ExtentStretch.validate (self : ExtentStretch) (siblings : List ExtentController) :
    Except ValidateError Unit :=
  match self.pos1.validate siblings with
  | .ok () => self.pos2.validate siblings
  | .error e => .error e

/-- `SizeType::validate`. -/
def SizeType.validate (self : SizeType) (siblings : List ExtentController) :
    Except ValidateError Unit :=
  match self with
  | .Stretch stretch => stretch.validate siblings
  | .Relative ref_view => ref_view.validate siblings
  | .Set _ => .ok ()

/-- `ExtentLocate::validate`. -/
def ExtentLocate.validate (self : ExtentLocate) (siblings : List ExtentController) :
    Except ValidateError Unit :=
  match self.pos.validate siblings with
  | .ok () => self.size.validate siblings
  | .error e => .error e

/-- `ExtentRatio::validate`. -/
def ExtentRatio.validate (self : ExtentRatio) (siblings : List ExtentController) :
    Except ValidateError Unit :=
  self.pos.validate siblings

/-- `ExtentUpdateType::validate`. -/
def ExtentUpdateType.validate (self : ExtentUpdateType) (siblings : List ExtentController) :
    Except ValidateError Unit :=
  match self with
  | .Stretch stretch => stretch.validate siblings
  | .Locate locate => locate.validate siblings
  | .Ratio ratio => ratio.validate siblings

/-- `ExtentUpdateSingle::validate`. -/
def ExtentUpdateSingle.validate (self : ExtentUpdateSingle) (siblings : List ExtentController) :
    Except ValidateError Unit :=
  self.extent_type.validate siblings

/-- `ExtentUpdate::validate`: rejects two ratio axes, then validates both
axes. -/
def ExtentUpdate.validate (self : ExtentUpdate) (siblings : List ExtentController) :
    Except ValidateError Unit :=
  match self.x.extent_type, self.y.extent_type with
  | .Ratio _, .Ratio _ => .error .BothRatio
  | _, _ =>
    match self.x.validate siblings with
    | .ok () => self.y.validate siblings
    | .error e => .error e

/-! ## The children scheduler (`src/view/children/scheduler.rs`) -/

/-- The scheduler-level validation errors (`ValidateError` in
`src/view/children/scheduler.rs`, renamed here because the extent
validator error enum of `validate.rs` has the same source name). -/
inductive SchedValidateError where
  /-- A view cannot be inserted at this position of a list of this length. -/
  | OutOfRange (pos len : Nat)
  /-- This position of a list of this length does not exist. -/
  | InvalidPos (pos len : Nat)
  /-- The view at this position references the previous view and would be
  moved to the back. -/
  | NoPrev (pos : Nat)
  /-- The view at this position would be moved behind one of its
  references. -/
  | InvalidId (pos : Nat)
  /-- The new view is itself invalid. -/
  | InvalidNew (err : ValidateError)
  deriving Repr, DecidableEq

/-- Modelled from the spec: `View::validate` is called by the scheduler
(`view.validate(children_extent)` in `scheduler.rs`) but not defined
under `src/`; per the spec it validates the child's descriptor against
the handle list. -/
def View.validate (self : View) (siblings : List ExtentController) :
    Except ValidateError Unit :=
  self.extent.update_info.validate siblings

/-- Modelled from the spec: `View::get_extent_controller` hands the
scheduler the reference handle of the view's descriptor. -/
def View.get_extent_controller (self : View) : ExtentController :=
  ⟨self.extent.update_info⟩

/-- The operations on the child list (`ChildrenScheduleOperation`). -/
inductive ChildrenScheduleOperation where
  /-- Push a view onto the end of the children list. -/
  | Push (view : View)
  /-- Insert a view into the children list at some position. -/
  | Insert (view : View) (pos : Nat)
  /-- Move a view from one position to another; the new location is
  calculated after the old one is removed. -/
  | Move (fromPos toPos : Nat)
  /-- Delete the view at a position. -/
  | Delete (pos : Nat)
  deriving Repr, DecidableEq

/-- Lifts an extent validation error into a scheduler error, as the
source's `From<extent::ValidateError>` conversion applied by `?`. -/
def liftValidate (r : Except ValidateError Unit) : Except SchedValidateError Unit :=
  match r with
  | .ok () => .ok ()
  | .error e => .error (.InvalidNew e)

/-- Applies `f` to every element at index `start` or later, the embedding
of iterating mutably over the slice `[start..]`. -/
def mapFrom (f : α → α) : Nat → List α → List α
  | _, [] => []
  | 0, a :: as => f a :: mapFrom f 0 as
  | n + 1, a :: as => a :: mapFrom f n as

/-- `ChildrenScheduleOperation::validate` against the current handle
list. -/
def ChildrenScheduleOperation.validate (self : ChildrenScheduleOperation)
    (children_extent : List ExtentController) : Except SchedValidateError Unit :=
  match self with
  | .Push view => liftValidate (view.validate children_extent)
  | .Insert view pos =>
    if pos > children_extent.length then
      .error (.OutOfRange pos children_extent.length)
    else
      liftValidate (view.validate (children_extent.take pos))
  | .Move fromPos toPos =>
    if toPos ≥ children_extent.length then
      .error (.OutOfRange toPos (children_extent.length - 1))
    else if fromPos ≥ children_extent.length then
      .error (.InvalidPos fromPos children_extent.length)
    else if toPos < fromPos then
      if toPos = 0 ∧ ((children_extent[fromPos]?.map ExtentController.check_prev).getD false) then
        .error (.NoPrev fromPos)
      else if (children_extent[fromPos]?.map fun c => c.check_id_range toPos fromPos).getD false then
        .error (.InvalidId fromPos)
      else .ok ()
    else if toPos > fromPos then
      if fromPos = 0 ∧ ((children_extent[1]?.map ExtentController.check_prev).getD false) then
        .error (.NoPrev 1)
      else
        match (((children_extent.drop (fromPos + 1)).take (toPos - (fromPos + 1))).findIdx?
            fun sibling => sibling.check_id fromPos) with
        | some pos => .error (.InvalidId (pos + fromPos + 1))
        | none => .ok ()
    else .ok ()
  | .Delete pos =>
    if pos ≥ children_extent.length then
      .error (.InvalidPos pos children_extent.length)
    else
      match ((children_extent.drop (pos + 1)).findIdx? fun sibling => sibling.check_id pos) with
      | some check_pos => .error (.InvalidId (check_pos + pos + 1))
      | none => .ok ()

/-- `ChildrenScheduleOperation::update`: the eager index rewrite of the
handle list performed right after successful validation. -/
def ChildrenScheduleOperation.update (self : ChildrenScheduleOperation)
    (children_extent : List ExtentController) : List ExtentController :=
  match self with
  | .Push view => children_extent ++ [view.get_extent_controller]
  | .Insert _ pos =>
    let iter_pos := if children_extent.length = pos then pos else pos + 1
    mapFrom (fun controller => controller.update_insert pos) iter_pos children_extent
  | .Move fromPos toPos =>
    let min_pos := if fromPos < toPos then fromPos else toPos
    mapFrom (fun controller => controller.update_move fromPos toPos) (min_pos + 1) children_extent
  | .Delete pos =>
    mapFrom (fun controller => controller.update_delete pos) (pos + 1) children_extent

/-- `ChildrenScheduleOperation::resolve`: applies the operation to the
real child list; `Vec::insert`/`Vec::remove` panics (out-of-bounds) are
embedded as `none`. -/
def ChildrenScheduleOperation.resolve (self : ChildrenScheduleOperation)
    (children : List View) : Option (List View) :=
  match self with
  | .Push view => some (children ++ [view])
  | .Insert view pos =>
    if pos ≤ children.length then some (children.insertIdx pos view) else none
  | .Move fromPos toPos =>
    match children[fromPos]? with
    | some view =>
      let removed := children.eraseIdx fromPos
      if toPos ≤ removed.length then some (removed.insertIdx toPos view) else none
    | none => none
  | .Delete pos =>
    if pos < children.length then some (children.eraseIdx pos) else none

/-- The scheduler state (`ChildrenScheduler`): the queue, the
children-have-queued-work flag (`ChildrenCheduleFlags::CHILDREN_QUEUE_ITEM`)
and the handle list. The parent back pointer is shared tree state outside
this per-scheduler embedding; `push_operation` only ever notifies the
parent, it never changes this scheduler through it. -/
structure ChildrenScheduler where
  queue : List ChildrenScheduleOperation
  children_queue_item : Bool
  children_extent_controllers : List ExtentController
  deriving Repr, DecidableEq

/-- `ChildrenScheduler::push_operation`: validate, then rewrite the
handle list and append to the queue; on a validation error the state is
returned untouched together with the error. -/
def ChildrenScheduler.push_operation (self : ChildrenScheduler)
    (operation : ChildrenScheduleOperation) :
    ChildrenScheduler × Option SchedValidateError :=
  match operation.validate self.children_extent_controllers with
  | .error e => (self, some e)
  | .ok () =>
    ({ queue := self.queue ++ [operation],
       children_queue_item := self.children_queue_item,
       children_extent_controllers :=
         operation.update self.children_extent_controllers }, none)

/-! ## Concrete fixtures used by the claim theorems -/

/-- An axis rule with no sibling references: `Locate{Set 0, Set 1}` with
the identity pipeline. -/
def singleSet : ExtentUpdateSingle :=
  { extent_type := .Locate { pos := .Set 0, size := .Set 1 },
    scale_rel := 1, scale_abs := 0, offset_rel := 0, offset_abs := 0 }

/-- A descriptor with no sibling references. -/
def descSet : ExtentUpdate := { x := singleSet, y := singleSet }

/-- A reference handle whose descriptor has no sibling references. -/
def ctrlSet : ExtentController := ⟨descSet⟩

/-- A descriptor whose x-axis position anchors to the previous sibling. -/
def descPrevRef : ExtentUpdate :=
  { x := { extent_type := .Locate { pos := .Anchor { ref_view := .Prev, ref_point := 0 },
                                    size := .Set 1 },
           scale_rel := 1, scale_abs := 0, offset_rel := 0, offset_abs := 0 },
    y := singleSet }

/-- A reference handle using a `Prev` reference. -/
def ctrlPrevRef : ExtentController := ⟨descPrevRef⟩

/-- A descriptor whose x-axis position anchors to sibling `Id 1`. -/
def descIdRef1 : ExtentUpdate :=
  { x := { extent_type := .Locate { pos := .Anchor { ref_view := .Id 1, ref_point := 0 },
                                    size := .Set 1 },
           scale_rel := 1, scale_abs := 0, offset_rel := 0, offset_abs := 0 },
    y := singleSet }

/-- A reference handle referencing sibling `Id 1`. -/
def ctrlIdRef1 : ExtentController := ⟨descIdRef1⟩

/-- A descriptor whose x-axis is `Locate` with the size taken relative to
sibling `Id n`. -/
def descSizeId (n : Nat) : ExtentUpdate :=
  { x := { extent_type := .Locate { pos := .Set 0, size := .Relative (.Id n) },
           scale_rel := 1, scale_abs := 0, offset_rel := 0, offset_abs := 0 },
    y := singleSet }

/-- A reference handle whose `Locate` size references sibling `Id 0`. -/
def ctrlSizeId0 : ExtentController := ⟨descSizeId 0⟩

/-- A view with no sibling references and the default rectangle. -/
def viewSet : View :=
  { extent := { x := 0, y := 0, w := 1, h := 1, ratio := none, update_info := descSet } }

/-! ## Claim theorems -/

/-- C1: refuted by evaluation; the claim states that a successfully
queued `Insert(child, pos)` increments every `Id` reference `≥ pos` of
every previously existing handle and inserts the new handle at `pos`.
On the handle list `[ctrlSet, ctrlSizeId0]` the operation
`Insert(viewSet, 0)` is accepted, yet the handle list after the eager
rewrite is completely unchanged: the `Id 0` reference (which is `≥ pos = 0`)
is not incremented (`ExtentLocate::update_insert` calls
`size.update_delete` on the size field) and no handle for the new child
is inserted (the `Insert` arm of `ChildrenScheduleOperation::update`
never adds `view.get_extent_controller()`), so the list still has length
2 instead of 3. -/
theorem C1_insert_rewrite_eval :
    ChildrenScheduler.push_operation ⟨[], false, [ctrlSet, ctrlSizeId0]⟩
      (.Insert viewSet 0) =
      (⟨[.Insert viewSet 0], false, [ctrlSet, ctrlSizeId0]⟩, none) := rfl

/-- C2: refuted by evaluation; inserting at `pos = 0` and then deleting
at `pos = 0` does not restore the descriptor `descSizeId 2`: its
`Locate` size reference `Id 2` ends at `Id 0`, because
`ExtentLocate::update_insert` applies `update_delete` to the size field
so the round trip decrements the id twice instead of returning it to its
original value. -/
theorem C2_roundtrip_eval :
    ((descSizeId 2).update_insert 0).update_delete 0 = descSizeId 0 ∧
      descSizeId 0 ≠ descSizeId 2 := by
  decide

/-- C3: refuted by evaluation; the claim requires `Delete(0)` to be
rejected when a later handle holds a `Prev` reference, but the `Delete`
arm of `ChildrenScheduleOperation::validate` only checks `check_id(pos)`
and never checks `check_prev`, so the operation is accepted. -/
theorem C3_delete_validate_eval :
    ChildrenScheduleOperation.validate (.Delete 0) [ctrlSet, ctrlPrevRef] = .ok () ∧
      ctrlPrevRef.check_prev = true := ⟨rfl, rfl⟩

/-- C5: refuted by evaluation; the claim requires `Move(from, to)` with
`from < to` to be rejected when the handle at position `to` (inside the
closed-at-right range `(from, to]`) references `from` by id, but the
forward arm of the validator only scans the slice `[from+1 .. to)`, so
`Move(1, 2)` is accepted although the handle at position 2 references
`Id 1`. -/
theorem C5_move_validate_eval :
    ChildrenScheduleOperation.validate (.Move 1 2) [ctrlSet, ctrlSet, ctrlIdRef1] = .ok () ∧
      ctrlIdRef1.check_id 1 = true := ⟨rfl, rfl⟩

/-- C4 counterexample: the claim as stated is false on two points.
First, an `Id` equal to `to` that is not strictly between `from` and
`to` is claimed unchanged, but `update_move(0, 1)` rewrites `Id 1` to
`Id 0`. Second, the rewrite is claimed to be applied to every handle of
the list, but a successfully queued `Move(1, 2)` leaves the handle at
position 0 untouched even though `update_move(1, 2)` would change its
`Id 1` reference. -/
theorem C4_counterexample :
    (RefView.Id 1).update_move 0 1 = .Id 0 ∧
      ChildrenScheduler.push_operation ⟨[], false, [ctrlIdRef1, ctrlSet, ctrlSet]⟩
        (.Move 1 2) =
        (⟨[.Move 1 2], false, [ctrlIdRef1, ctrlSet, ctrlSet]⟩, none) ∧
      ctrlIdRef1.update_move 1 2 ≠ ctrlIdRef1 := ⟨rfl, rfl, by decide⟩

/-- C6: whenever `push_operation` returns an error, the scheduler state
(queue, flag and handle list) is exactly the state before the call;
validation happens before any mutation, so a rejection is atomic. -/
theorem C6_atomic_rejection (s : ChildrenScheduler) (op : ChildrenScheduleOperation)
    (s2 : ChildrenScheduler) (e : SchedValidateError)
    (h : s.push_operation op = (s2, some e)) : s2 = s := by
  unfold ChildrenScheduler.push_operation at h
  cases hv : op.validate s.children_extent_controllers with
  | error e2 =>
    rw [hv] at h
    exact (Prod.mk.injEq _ _ _ _ ▸ h).1.symm
  | ok u =>
    cases u
    rw [hv] at h
    exact absurd (Prod.mk.injEq _ _ _ _ ▸ h).2 (by simp)

/-- Witness for C6: pushing `Delete 0` on an empty scheduler is rejected
with `InvalidPos 0 0` and leaves the state unchanged. -/
theorem C6_atomic_rejection_witness :
    ChildrenScheduler.push_operation ⟨[], false, []⟩ (.Delete 0) =
      (⟨[], false, []⟩, some (.InvalidPos 0 0)) ∧
      (⟨[], false, []⟩ : ChildrenScheduler) = ⟨[], false, []⟩ :=
  ⟨rfl, C6_atomic_rejection ⟨[], false, []⟩ (.Delete 0) ⟨[], false, []⟩ (.InvalidPos 0 0) rfl⟩

/-- C7: the per-axis pipeline clamps the size, so whatever the axis rule,
the siblings, the parent ratio and the other-axis size are, a size it
produces is never negative. -/
theorem C7_nonneg_size (single : ExtentUpdateSingle) (dim : Dim) (siblings : List View)
    (parent_ratio : AspectRatio) (other_size p sz : Rat)
    (h : single.get dim siblings parent_ratio other_size = some (p, sz)) : 0 ≤ sz := by
  unfold ExtentUpdateSingle.get at h
  cases hbase : single.extent_type.get dim siblings parent_ratio other_size with
  | none => rw [hbase] at h; exact absurd h (by simp)
  | some ps =>
    rw [hbase] at h
    simp only [Option.some.injEq, Prod.mk.injEq] at h
    rw [← h.2]
    split
    · exact le_refl 0
    · linarith [not_lt.mp (by assumption)]

/-- Witness for C7: the all-`Set` axis rule evaluates to size 1, which is
nonnegative. -/
theorem C7_nonneg_size_witness : (0 : Rat) ≤ 1 :=
  C7_nonneg_size singleSet .X [] ⟨1⟩ 0 0 1 (by
    simp [singleSet, ExtentUpdateSingle.get, ExtentUpdateType.get, ExtentLocate.get,
      PositionType.get, SizeType.get])

/-- Indexing into `mapFrom`: elements before `n` are unchanged, elements
at `n` or later are mapped. -/
theorem mapFrom_getElem? (f : α → α) : ∀ (n : Nat) (l : List α) (i : Nat),
    (mapFrom f n l)[i]? = if i < n then l[i]? else (l[i]?).map f := by
  intro n l
  induction l generalizing n with
  | nil => intro i; simp [mapFrom]
  | cons a as ih =>
    intro i
    cases n with
    | zero =>
      cases i with
      | zero => simp [mapFrom]
      | succ j => simpa [mapFrom] using ih 0 j
    | succ m =>
      cases i with
      | zero => simp [mapFrom]
      | succ j => simpa [mapFrom, Nat.succ_lt_succ_iff] using ih m j

/-- C4 amended: on `Move(from, to)` the eager rewrite applies
`update_move(from, to)` exactly to the handles at positions strictly
after `min(from, to)` (earlier handles are untouched), and `update_move`
acts on a reference as follows: an `Id` equal to `from` becomes `to`;
when moving later, an `Id` in the half-open-at-left, closed-at-right
range `(from, to]` shifts down by one; when moving earlier, an `Id` in
the closed-at-left, open-at-right range `[to, from)` shifts up by one;
every other `Id` and every `Prev` reference is unchanged. -/
theorem C4_move_rewrite (fromPos toPos : Nat) :
    ((RefView.Id fromPos).update_move fromPos toPos = .Id toPos) ∧
    (∀ i, fromPos < i → i ≤ toPos →
      (RefView.Id i).update_move fromPos toPos = .Id (i - 1)) ∧
    (∀ i, toPos ≤ i → i < fromPos →
      (RefView.Id i).update_move fromPos toPos = .Id (i + 1)) ∧
    (∀ i, i ≠ fromPos → ¬(fromPos < i ∧ i ≤ toPos) → ¬(toPos ≤ i ∧ i < fromPos) →
      (RefView.Id i).update_move fromPos toPos = .Id i) ∧
    (RefView.Prev.update_move fromPos toPos = .Prev) ∧
    (∀ (ctrls : List ExtentController) (i : Nat),
      ((ChildrenScheduleOperation.Move fromPos toPos).update ctrls)[i]? =
        if i ≤ min fromPos toPos then ctrls[i]?
        else (ctrls[i]?).map fun c => c.update_move fromPos toPos) := by
  refine ⟨?_, ?_, ?_, ?_, rfl, ?_⟩
  · simp only [RefView.update_move]
    split_ifs <;> rfl
  · intro i h1 h2
    simp only [RefView.update_move]
    split_ifs <;> first | rfl | omega
  · intro i h1 h2
    simp only [RefView.update_move]
    split_ifs <;> first | rfl | omega
  · intro i h1 h2 h3
    simp only [RefView.update_move]
    split_ifs <;> first | rfl | omega
  · intro ctrls i
    simp only [ChildrenScheduleOperation.update, mapFrom_getElem?]
    split_ifs <;> first | rfl | omega

/-- Witness for C4: `Move(1, 3)` turns `Id 2` into `Id 1`, `Move(3, 1)`
turns `Id 2` into `Id 3`, and `Move(1, 3)` leaves `Id 5` unchanged. -/
theorem C4_move_rewrite_witness :
    (RefView.Id 2).update_move 1 3 = .Id 1 ∧
      (RefView.Id 2).update_move 3 1 = .Id 3 ∧
      (RefView.Id 5).update_move 1 3 = .Id 5 :=
  ⟨(C4_move_rewrite 1 3).2.1 2 (by omega) (by omega),
   (C4_move_rewrite 3 1).2.2.1 2 (by omega) (by omega),
   (C4_move_rewrite 1 3).2.2.2.1 5 (by omega) (by omega) (by omega)⟩

/-- `update_move` with equal source and target is the identity on a
reference. -/
theorem refView_move_self_id (i : Nat) (r : RefView) : r.update_move i i = r := by
  cases r with
  | Prev => rfl
  | Id id =>
    simp only [RefView.update_move]
    split_ifs <;> first | rfl | omega | simp_all

/-- `update_move` with equal source and target is the identity on an
anchor point. -/
theorem anchorPoint_move_self_id (i : Nat) (a : AnchorPoint) : a.update_move i i = a := by
  simp [AnchorPoint.update_move, refView_move_self_id]

/-- `update_move` with equal source and target is the identity on a
position. -/
theorem positionType_move_self_id (i : Nat) (p : PositionType) : p.update_move i i = p := by
  cases p <;> simp [PositionType.update_move, anchorPoint_move_self_id]

/-- `update_move` with equal source and target is the identity on a
stretch. -/
theorem extentStretch_move_self_id (i : Nat) (s : ExtentStretch) : s.update_move i i = s := by
  simp [ExtentStretch.update_move, positionType_move_self_id]

/-- `update_move` with equal source and target is the identity on a
size. -/
theorem sizeType_move_self_id (i : Nat) (s : SizeType) : s.update_move i i = s := by
  cases s <;>
    simp [SizeType.update_move, refView_move_self_id, extentStretch_move_self_id]

/-- `update_move` with equal source and target is the identity on a
locate mode. -/
theorem extentLocate_move_self_id (i : Nat) (l : ExtentLocate) : l.update_move i i = l := by
  simp [ExtentLocate.update_move, positionType_move_self_id, sizeType_move_self_id]

/-- `update_move` with equal source and target is the identity on a
ratio mode. -/
theorem extentRatio_move_self_id (i : Nat) (r : ExtentRatio) : r.update_move i i = r := by
  simp [ExtentRatio.update_move, positionType_move_self_id]

/-- `update_move` with equal source and target is the identity on a base
mode. -/
theorem extentUpdateType_move_self_id (i : Nat) (t : ExtentUpdateType) :
    t.update_move i i = t := by
  cases t <;>
    simp [ExtentUpdateType.update_move, extentStretch_move_self_id,
      extentLocate_move_self_id, extentRatio_move_self_id]

/-- `update_move` with equal source and target is the identity on an
axis rule. -/
theorem extentUpdateSingle_move_self_id (i : Nat) (s : ExtentUpdateSingle) :
    s.update_move i i = s := by
  simp [ExtentUpdateSingle.update_move, extentUpdateType_move_self_id]

/-- `update_move` with equal source and target is the identity on a
descriptor. -/
theorem extentUpdate_move_self_id (i : Nat) (u : ExtentUpdate) : u.update_move i i = u := by
  simp [ExtentUpdate.update_move, extentUpdateSingle_move_self_id]

/-- `update_move` with equal source and target is the identity on a
reference handle. -/
theorem extentController_move_self_id (i : Nat) (c : ExtentController) :
    c.update_move i i = c := by
  simp [ExtentController.update_move, extentUpdate_move_self_id]

/-- `mapFrom` with a pointwise-identity function is the identity. -/
theorem mapFrom_congr_id (f : α → α) (hf : ∀ a, f a = a) :
    ∀ (n : Nat) (l : List α), mapFrom f n l = l := by
  intro n l
  induction l generalizing n with
  | nil => simp [mapFrom]
  | cons a as ih =>
    cases n with
    | zero => simp [mapFrom, hf, ih]
    | succ m => simp [mapFrom, ih]

/-- Removing the element at an index and inserting it back at the same
index restores the list. -/
theorem insertIdx_eraseIdx_self : ∀ (l : List α) (i : Nat) (v : α),
    l[i]? = some v → (l.eraseIdx i).insertIdx i v = l := by
  intro l
  induction l with
  | nil => intro i v h; simp at h
  | cons a as ih =>
    intro i v h
    cases i with
    | zero =>
      simp only [List.getElem?_cons_zero, Option.some.injEq] at h
      subst h
      rfl
    | succ j =>
      simp only [List.getElem?_cons_succ] at h
      simp only [List.eraseIdx_cons_succ, List.insertIdx_succ_cons]
      rw [ih j v h]

/-- C10: `Move(i, i)` on a non-empty handle list with `i < n` is
accepted, the eager rewrite leaves every handle unchanged (the queue
just grows by the operation), and resolving the operation returns the
child list unchanged. -/
theorem C10_move_self_noop (s : ChildrenScheduler) (i : Nat)
    (hi : i < s.children_extent_controllers.length) :
    s.push_operation (.Move i i) =
      ({ queue := s.queue ++ [.Move i i],
         children_queue_item := s.children_queue_item,
         children_extent_controllers := s.children_extent_controllers }, none) ∧
    ∀ (children : List View), i < children.length →
      ChildrenScheduleOperation.resolve (.Move i i) children = some children := by
  constructor
  · have hval : ChildrenScheduleOperation.validate (.Move i i)
        s.children_extent_controllers = .ok () := by
      simp only [ChildrenScheduleOperation.validate]
      split_ifs <;> first | rfl | (exfalso; omega)
    have hupd : ChildrenScheduleOperation.update (.Move i i)
        s.children_extent_controllers = s.children_extent_controllers := by
      simp only [ChildrenScheduleOperation.update, lt_irrefl, if_false]
      exact mapFrom_congr_id _ (extentController_move_self_id i) (i + 1) _
    simp only [ChildrenScheduler.push_operation, hval, hupd]
  · intro children hc
    have hv : children[i]? = some children[i] := List.getElem?_eq_getElem hc
    have hlen : (children.eraseIdx i).length + 1 = children.length :=
      List.length_eraseIdx_add_one hc
    simp only [ChildrenScheduleOperation.resolve, hv]
    rw [if_pos (by omega)]
    rw [insertIdx_eraseIdx_self children i children[i] hv]

/-- Witness for C10: moving the only child onto its own position is a
queued no-op. -/
theorem C10_move_self_noop_witness :
    ChildrenScheduler.push_operation ⟨[], false, [ctrlSet]⟩ (.Move 0 0) =
      (⟨[.Move 0 0], false, [ctrlSet]⟩, none) ∧
      ChildrenScheduleOperation.resolve (.Move 0 0) [viewSet] = some [viewSet] :=
  ⟨(C10_move_self_noop ⟨[], false, [ctrlSet]⟩ 0 (by simp)).1,
   (C10_move_self_noop ⟨[], false, [ctrlSet]⟩ 0 (by simp)).2 [viewSet] (by simp)⟩

/-- A validated reference resolves against any sibling list of the same
length. -/
theorem refView_validate_get_isSome (r : RefView) (ctrls : List ExtentController)
    (views : List View) (dim : Dim) (hlen : views.length = ctrls.length)
    (h : r.validate ctrls = .ok ()) : (r.get dim views).isSome := by
  cases r with
  | Id n =>
    simp only [RefView.validate] at h
    by_cases hn : n ≥ ctrls.length
    · rw [if_pos hn] at h; exact absurd h (by simp)
    · have hv : n < views.length := by omega
      simp [RefView.get, List.getElem?_eq_getElem hv]
  | Prev =>
    simp only [RefView.validate] at h
    by_cases hn : ctrls.length = 0
    · rw [if_pos hn] at h; exact absurd h (by simp)
    · have hne : views ≠ [] := by
        intro he
        rw [he] at hlen
        simp at hlen
        omega
      have : views.getLast?.isSome := by
        rw [Option.isSome_iff_ne_none]
        simp [List.getLast?_eq_none_iff]
        exact hne
      cases hv : views.getLast? with
      | none => rw [hv] at this; exact absurd this (by simp)
      | some v => simp [RefView.get, hv]

/-- A validated anchor point evaluates against any sibling list of the
same length. -/
theorem anchorPoint_validate_get_isSome (a : AnchorPoint) (ctrls : List ExtentController)
    (views : List View) (dim : Dim) (hlen : views.length = ctrls.length)
    (h : a.validate ctrls = .ok ()) : (a.get dim views).isSome := by
  have hr := refView_validate_get_isSome a.ref_view ctrls views dim hlen h
  cases hv : a.ref_view.get dim views with
  | none => rw [hv] at hr; exact absurd hr (by simp)
  | some v => simp [AnchorPoint.get, hv]

/-- A validated position evaluates against any sibling list of the same
length. -/
theorem positionType_validate_get_isSome (p : PositionType) (ctrls : List ExtentController)
    (views : List View) (dim : Dim) (hlen : views.length = ctrls.length)
    (h : p.validate ctrls = .ok ()) : (p.get dim views).isSome := by
  cases p with
  | Anchor anchor => exact anchorPoint_validate_get_isSome anchor ctrls views dim hlen h
  | Set v => simp [PositionType.get]

/-- A validated stretch evaluates against any sibling list of the same
length. -/
theorem extentStretch_validate_get_isSome (s : ExtentStretch) (ctrls : List ExtentController)
    (views : List View) (dim : Dim) (hlen : views.length = ctrls.length)
    (h : s.validate ctrls = .ok ()) : (s.get dim views).isSome := by
  simp only [ExtentStretch.validate] at h
  cases h1 : s.pos1.validate ctrls with
  | error e => rw [h1] at h; exact absurd h (by simp)
  | ok u =>
    cases u
    rw [h1] at h
    have hp1 := positionType_validate_get_isSome s.pos1 ctrls views dim hlen h1
    have hp2 := positionType_validate_get_isSome s.pos2 ctrls views dim hlen h
    cases hv1 : s.pos1.get dim views with
    | none => rw [hv1] at hp1; exact absurd hp1 (by simp)
    | some v1 =>
      cases hv2 : s.pos2.get dim views with
      | none => rw [hv2] at hp2; exact absurd hp2 (by simp)
      | some v2 => simp [ExtentStretch.get, hv1, hv2]

/-- A validated size evaluates against any sibling list of the same
length. -/
theorem sizeType_validate_get_isSome (s : SizeType) (ctrls : List ExtentController)
    (views : List View) (dim : Dim) (hlen : views.length = ctrls.length)
    (h : s.validate ctrls = .ok ()) : (s.get dim views).isSome := by
  cases s with
  | Stretch stretch =>
    have hs := extentStretch_validate_get_isSome stretch ctrls views dim hlen h
    cases hv : stretch.get dim views with
    | none => rw [hv] at hs; exact absurd hs (by simp)
    | some v => simp [SizeType.get, hv]
  | Relative ref_view =>
    have hr := refView_validate_get_isSome ref_view ctrls views dim hlen h
    cases hv : ref_view.get dim views with
    | none => rw [hv] at hr; exact absurd hr (by simp)
    | some v => simp [SizeType.get, hv]
  | Set v => simp [SizeType.get]

/-- A validated locate mode evaluates against any sibling list of the
same length. -/
theorem extentLocate_validate_get_isSome (l : ExtentLocate) (ctrls : List ExtentController)
    (views : List View) (dim : Dim) (hlen : views.length = ctrls.length)
    (h : l.validate ctrls = .ok ()) : (l.get dim views).isSome := by
  simp only [ExtentLocate.validate] at h
  cases h1 : l.pos.validate ctrls with
  | error e => rw [h1] at h; exact absurd h (by simp)
  | ok u =>
    cases u
    rw [h1] at h
    have hp := positionType_validate_get_isSome l.pos ctrls views dim hlen h1
    have hs := sizeType_validate_get_isSome l.size ctrls views dim hlen h
    cases hv1 : l.pos.get dim views with
    | none => rw [hv1] at hp; exact absurd hp (by simp)
    | some v1 =>
      cases hv2 : l.size.get dim views with
      | none => rw [hv2] at hs; exact absurd hs (by simp)
      | some v2 => simp [ExtentLocate.get, hv1, hv2]

/-- A validated ratio mode evaluates against any sibling list of the
same length. -/
theorem extentRatio_validate_get_isSome (r : ExtentRatio) (ctrls : List ExtentController)
    (views : List View) (dim : Dim) (parent_ratio : AspectRatio) (other_size : Rat)
    (hlen : views.length = ctrls.length)
    (h : r.validate ctrls = .ok ()) : (r.get dim views parent_ratio other_size).isSome := by
  have hp := positionType_validate_get_isSome r.pos ctrls views dim hlen h
  cases hv : r.pos.get dim views with
  | none => rw [hv] at hp; exact absurd hp (by simp)
  | some v => simp [ExtentRatio.get, hv]

/-- A validated base mode evaluates against any sibling list of the same
length. -/
theorem extentUpdateType_validate_get_isSome (t : ExtentUpdateType)
    (ctrls : List ExtentController) (views : List View) (dim : Dim)
    (parent_ratio : AspectRatio) (other_size : Rat)
    (hlen : views.length = ctrls.length)
    (h : t.validate ctrls = .ok ()) : (t.get dim views parent_ratio other_size).isSome := by
  cases t with
  | Stretch stretch => exact extentStretch_validate_get_isSome stretch ctrls views dim hlen h
  | Locate locate => exact extentLocate_validate_get_isSome locate ctrls views dim hlen h
  | Ratio ratio =>
    exact extentRatio_validate_get_isSome ratio ctrls views dim parent_ratio other_size hlen h

/-- A validated axis rule evaluates against any sibling list of the same
length. -/
theorem extentUpdateSingle_validate_get_isSome (s : ExtentUpdateSingle)
    (ctrls : List ExtentController) (views : List View) (dim : Dim)
    (parent_ratio : AspectRatio) (other_size : Rat)
    (hlen : views.length = ctrls.length)
    (h : s.validate ctrls = .ok ()) : (s.get dim views parent_ratio other_size).isSome := by
  have ht := extentUpdateType_validate_get_isSome s.extent_type ctrls views dim
    parent_ratio other_size hlen h
  cases hv : s.extent_type.get dim views parent_ratio other_size with
  | none => rw [hv] at ht; exact absurd ht (by simp)
  | some v => simp [ExtentUpdateSingle.get, hv]

/-- C8: if a descriptor validates against a handle list of length `n`,
evaluating it against any sibling list of the same length `n` resolves
every reference: every `Prev` finds a last element, every `Id k` is in
bounds, and the evaluation returns a rectangle instead of panicking. -/
theorem C8_validated_get_total (u : ExtentUpdate) (ctrls : List ExtentController)
    (views : List View) (parent_ratio : AspectRatio)
    (hok : u.validate ctrls = .ok ()) (hlen : views.length = ctrls.length) :
    (u.get views parent_ratio).isSome := by
  have hxy : u.x.validate ctrls = .ok () ∧ u.y.validate ctrls = .ok () := by
    simp only [ExtentUpdate.validate] at hok
    split at hok
    · exact absurd hok (by simp)
    · split at hok
      · rename_i heq
        exact ⟨heq, hok⟩
      · exact absurd hok (by simp)
  obtain ⟨hxok, hyok⟩ := hxy
  unfold ExtentUpdate.get
  cases hxt : u.x.extent_type with
  | Ratio tx =>
    have hy := extentUpdateSingle_validate_get_isSome u.y ctrls views .Y parent_ratio 0 hlen hyok
    cases hyv : u.y.get .Y views parent_ratio 0 with
    | none => rw [hyv] at hy; exact absurd hy (by simp)
    | some yv =>
      have hx := extentUpdateSingle_validate_get_isSome u.x ctrls views .X parent_ratio yv.2
        hlen hxok
      cases hxv : u.x.get .X views parent_ratio yv.2 with
      | none => rw [hxv] at hx; exact absurd hx (by simp)
      | some xv => simp [hyv, hxv]
  | Stretch tx =>
    have hx := extentUpdateSingle_validate_get_isSome u.x ctrls views .X parent_ratio 0 hlen hxok
    cases hxv : u.x.get .X views parent_ratio 0 with
    | none => rw [hxv] at hx; exact absurd hx (by simp)
    | some xv =>
      have hy := extentUpdateSingle_validate_get_isSome u.y ctrls views .Y parent_ratio xv.2
        hlen hyok
      cases hyv : u.y.get .Y views parent_ratio xv.2 with
      | none => rw [hyv] at hy; exact absurd hy (by simp)
      | some yv => simp [hxv, hyv]
  | Locate tx =>
    have hx := extentUpdateSingle_validate_get_isSome u.x ctrls views .X parent_ratio 0 hlen hxok
    cases hxv : u.x.get .X views parent_ratio 0 with
    | none => rw [hxv] at hx; exact absurd hx (by simp)
    | some xv =>
      have hy := extentUpdateSingle_validate_get_isSome u.y ctrls views .Y parent_ratio xv.2
        hlen hyok
      cases hyv : u.y.get .Y views parent_ratio xv.2 with
      | none => rw [hyv] at hy; exact absurd hy (by simp)
      | some yv => simp [hxv, hyv]

/-- Witness for C8: the reference-free descriptor validates against the
empty handle list and evaluates against the empty sibling list. -/
theorem C8_validated_get_total_witness : (descSet.get [] ⟨1⟩).isSome :=
  C8_validated_get_total descSet [] [] ⟨1⟩ rfl rfl

/-- C9: for a parent ratio created from width `w` and height `h`, a
`Ratio`-shaped axis produces the raw size `other_size / (w / h)` on the
x-axis and `other_size / (h / w)` on the y-axis, whatever position rule
and sibling list are used. -/
theorem C9_ratio_size (w h other_size : Rat) (r : AspectRatio) (er : ExtentRatio)
    (views : List View) (hw : 0 < w) (hh : 0 < h)
    (hr : AspectRatio.new w h = some r) :
    (∀ p s2, er.get .X views r other_size = some (p, s2) → s2 = other_size / (w / h)) ∧
    (∀ p s2, er.get .Y views r other_size = some (p, s2) → s2 = other_size / (h / w)) := by
  have hv : r = ⟨w / h⟩ := by
    unfold AspectRatio.new at hr
    rw [if_pos ⟨hw, hh⟩] at hr
    cases hr
    rfl
  constructor
  · intro p s2 hg
    unfold ExtentRatio.get at hg
    cases hp : er.pos.get .X views with
    | none => rw [hp] at hg; exact absurd hg (by simp)
    | some v =>
      rw [hp] at hg
      simp only [Option.map_some', Option.some.injEq, Prod.mk.injEq] at hg
      rw [← hg.2, hv]
      rfl
  · intro p s2 hg
    unfold ExtentRatio.get at hg
    cases hp : er.pos.get .Y views with
    | none => rw [hp] at hg; exact absurd hg (by simp)
    | some v =>
      rw [hp] at hg
      simp only [Option.map_some', Option.some.injEq, Prod.mk.injEq] at hg
      rw [← hg.2, hv]
      show other_size / AspectRatio.get_y ⟨w / h⟩ = other_size / (h / w)
      rw [AspectRatio.get_y, one_div, inv_div]

/-- Witness for C9: a parent with `w = 2`, `h = 8` has ratio component
`w/h = 1/4`; an x-axis `Ratio` rule with other-axis size `5` yields raw
size `20`, matching `5 / (2 / 8)`. -/
theorem C9_ratio_size_witness :
    ExtentRatio.get ⟨.Set (5 / 2)⟩ .X [] ⟨1 / 4⟩ 5 = some (5 / 2, 20) ∧
      (20 : Rat) = 5 / (2 / 8) := by
  constructor
  · simp [ExtentRatio.get, PositionType.get, AspectRatio.get_x]
    norm_num
  · have h20 := (C9_ratio_size 2 8 5 ⟨1 / 4⟩ ⟨.Set (5 / 2)⟩ [] (by norm_num) (by norm_num)
      (by simp [AspectRatio.new]; norm_num)).1 (5 / 2) 20
    apply h20
    simp [ExtentRatio.get, PositionType.get, AspectRatio.get_x]
    norm_num
